import Mathlib

/-!
Shallow embedding of the Todo CRUD core (Express + Mongoose backend):
the `Todo` schema with its validation rules, and the five request
handlers `createTodo`, `getAllTodos`, `getTodoById`, `updateTodo`,
`deleteTodo`.  The entity store is a `List Todo`; timestamps are `Nat`;
each handler returns the HTTP outcome together with the new store state.
-/

namespace TodoApp

/-- Code points removed by JavaScript `String.prototype.trim` (the
Mongoose `trim: true` setter): WhiteSpace and LineTerminator. -/
def jsWhitespaceCodes : List Nat :=
  [9, 10, 11, 12, 13, 32, 160, 0x1680, 0x2000, 0x2001, 0x2002, 0x2003,
   0x2004, 0x2005, 0x2006, 0x2007, 0x2008, 0x2009, 0x200a, 0x2028,
   0x2029, 0x202f, 0x205f, 0x3000, 0xfeff]

def jsWhitespace (c : Char) : Bool :=
  jsWhitespaceCodes.contains c.toNat

/-- JavaScript `trim` on a character list: drop leading whitespace, then
drop trailing whitespace. -/
def trimChars (l : List Char) : List Char :=
  ((l.dropWhile jsWhitespace).reverse.dropWhile jsWhitespace).reverse

/-- JavaScript `String.prototype.trim`, as applied by the schema's
`trim: true` setter on `title` and `description`. -/
def strTrim (s : String) : String :=
  ⟨trimChars s.data⟩

/-- `mongoose.Types.ObjectId.isValid` on a string: a 24-character hex
string, or any 12-character string. -/
def isHexChar (c : Char) : Bool :=
  (('0' ≤ c) && (c ≤ '9')) || (('a' ≤ c) && (c ≤ 'f')) ||
    (('A' ≤ c) && (c ≤ 'F'))

def isValidObjectId (id : String) : Bool :=
  id.length == 12 || (id.length == 24 && id.data.all isHexChar)

/-- A stored Todo document (after the `toJSON` transform: `_id` → `id`). -/
structure Todo where
  id : String
  title : String
  description : String
  status : Bool
  priority : String
  createdAt : Nat
  updatedAt : Nat
deriving DecidableEq, Repr

/-- The `data` payload of a response body: a single record, a list, or
JSON `null`. -/
inductive RespData where
  | one (t : Todo)
  | many (ts : List Todo)
  | null
deriving DecidableEq, Repr

/-- An HTTP response body: the uniform envelope, or the empty body sent
by `res.status(204).send()`. -/
inductive Body where
  | envelope (success : Bool) (message : String) (data : RespData)
  | empty
deriving DecidableEq, Repr

def Body.isEnvelope : Body → Bool
  | .envelope .. => true
  | .empty => false

structure Resp where
  status : Nat
  body : Body
deriving DecidableEq, Repr

/-- The `response` helper: `(success, message, data) => ({success, message, data})`. -/
def response (success : Bool) (message : String) (data : RespData) : Body :=
  Body.envelope success message data

/-- The list carried by a response, when it carries one. -/
def Resp.listData (r : Resp) : List Todo :=
  match r.body with
  | .envelope _ _ (.many ts) => ts
  | _ => []

-- ── Schema validation (the `todoSchema` rules) ──────────────────────────

def titleRequiredMsg : String := "Title is required"

def titleMinLenMsg : String := "Title must be at least 3 characters long"

def priorityEnumMsg : String :=
  "Priority must be one of \"low\", \"medium\", or \"high\""

/-- Validator errors for `title` on document creation: `required` fails
when the field is absent or trims to the empty string; `minlength`
fails when the trimmed value is shorter than 3. -/
def titleErrors (title : Option String) : List String :=
  match title with
  | none => [titleRequiredMsg]
  | some s =>
    if strTrim s = "" then [titleRequiredMsg]
    else if (strTrim s).length < 3 then [titleMinLenMsg]
    else []

def validPriority (p : String) : Bool :=
  p == "low" || p == "medium" || p == "high"

/-- Validator errors for `priority`: the enum check, run only when the
field is supplied. -/
def priorityErrors (p : Option String) : List String :=
  match p with
  | none => []
  | some s => if validPriority s then [] else [priorityEnumMsg]

-- ── 1. CREATE – POST /api/todos ─────────────────────────────────────────

/-- The request body fields read by `createTodo`. -/
structure CreateInput where
  title : Option String
  description : Option String
  status : Option Bool
  priority : Option String
deriving DecidableEq, Repr

/-- All field-level validation errors raised by `Todo.create`, in schema
path order (`title` before `priority`). -/
def createValidationErrors (inp : CreateInput) : List String :=
  titleErrors inp.title ++ priorityErrors inp.priority

/-- The document built by `Todo.create` when validation passes: setters
trim `title`/`description`; defaults fill omitted fields; the system
assigns `id` and sets both timestamps to the current time. -/
def newTodo (inp : CreateInput) (id : String) (now : Nat) : Todo :=
  { id := id
    title := strTrim (inp.title.getD "")
    description := strTrim (inp.description.getD "")
    status := inp.status.getD false
    priority := inp.priority.getD "medium"
    createdAt := now
    updatedAt := now }

/-- `createTodo`: validates via the schema, returns 201 with the new
record on success, 400 with the joined validator messages on failure. -/
def createTodo (inp : CreateInput) (id : String) (now : Nat)
    (store : List Todo) : Resp × List Todo :=
  let errs := createValidationErrors inp
  if errs.isEmpty then
    let t := newTodo inp id now
    ({ status := 201,
       body := response true "Todo created successfully" (.one t) },
     store ++ [t])
  else
    ({ status := 400,
       body := response false (String.intercalate ". " errs) .null },
     store)

-- ── 2. READ ALL – GET /api/todos ────────────────────────────────────────

/-- The query parameters read by `getAllTodos` (query-string values are
strings when present). -/
structure ListQuery where
  status : Option String
  priority : Option String
deriving DecidableEq, Repr

/-- The Mongo filter built by `getAllTodos`: `status` is constrained to
`req.query.status === "true"` when the parameter is present; `priority`
is an equality constraint when present. -/
def matchesFilter (q : ListQuery) (t : Todo) : Bool :=
  (match q.status with
   | none => true
   | some s => t.status == (s == "true")) &&
  (match q.priority with
   | none => true
   | some p => t.priority == p)

/-- Insertion step of `sort({createdAt: -1})`: newest first. -/
def insertByCreatedAtDesc (t : Todo) : List Todo → List Todo
  | [] => [t]
  | x :: xs =>
    if x.createdAt ≤ t.createdAt then t :: x :: xs
    else x :: insertByCreatedAtDesc t xs

/-- `sort({createdAt: -1})`: sort descending by `createdAt`. -/
def sortByCreatedAtDesc : List Todo → List Todo
  | [] => []
  | x :: xs => insertByCreatedAtDesc x (sortByCreatedAtDesc xs)

/-- `getAllTodos`: `Todo.find(filter).sort({createdAt: -1})`, wrapped in
a 200 envelope whose message states the number of records returned. -/
def getAllTodos (q : ListQuery) (store : List Todo) : Resp :=
  let todos := sortByCreatedAtDesc (store.filter (matchesFilter q))
  { status := 200,
    body := response true
      (toString todos.length ++ " todo(s) retrieved successfully")
      (.many todos) }

-- ── 3. READ ONE – GET /api/todos/:id ────────────────────────────────────

/-- `Todo.findById`: the record with the given id, if any. -/
def findById (id : String) (store : List Todo) : Option Todo :=
  store.find? (fun t => t.id == id)

/-- `getTodoById`: 400 on a malformed id (before any lookup), 404 when
absent, 200 with the record otherwise. -/
def getTodoById (id : String) (store : List Todo) : Resp :=
  if isValidObjectId id then
    match findById id store with
    | none => { status := 404, body := response false "Todo not found" .null }
    | some t =>
      { status := 200,
        body := response true "Todo retrieved successfully" (.one t) }
  else
    { status := 400,
      body := response false ("\"" ++ id ++ "\" is not a valid Todo ID") .null }

-- ── 4. UPDATE – PATCH /api/todos/:id ────────────────────────────────────

/-- An update request body.  Besides the four whitelisted fields it may
carry `id` and `createdAt`, which the handler must ignore. -/
structure UpdateBody where
  title : Option String
  description : Option String
  status : Option Bool
  priority : Option String
  id : Option String
  createdAt : Option Nat
deriving DecidableEq, Repr

/-- The whitelisted update fields actually applied. -/
structure Updates where
  title : Option String
  description : Option String
  status : Option Bool
  priority : Option String
deriving DecidableEq, Repr

/-- The whitelist step of `updateTodo`: keep only
`{title, description, status, priority}` from the body. -/
def whitelist (b : UpdateBody) : Updates :=
  { title := b.title
    description := b.description
    status := b.status
    priority := b.priority }

def Updates.isEmpty (u : Updates) : Bool :=
  u.title.isNone && u.description.isNone && u.status.isNone &&
    u.priority.isNone

/-- Update validator errors for `title` (`runValidators: true`): the
setter trims first; `minlength` fails when the trimmed value is shorter
than 3. -/
def updateTitleErrors : Option String → List String
  | none => []
  | some s => if (strTrim s).length < 3 then [titleMinLenMsg] else []

/-- All update validator errors, run against the supplied paths only. -/
def updateValidationErrors (u : Updates) : List String :=
  updateTitleErrors u.title ++ priorityErrors u.priority

/-- Overlay the supplied fields onto a stored record (setters trim the
string fields) and refresh `updatedAt` (`timestamps` option). -/
def applyUpdates (u : Updates) (now : Nat) (t : Todo) : Todo :=
  { t with
    title := match u.title with | none => t.title | some s => strTrim s
    description :=
      match u.description with | none => t.description | some s => strTrim s
    status := u.status.getD t.status
    priority := u.priority.getD t.priority
    updatedAt := now }

/-- Store effect of `findByIdAndUpdate`: the matching record is
replaced by its merged version. -/
def updateStore (id : String) (u : Updates) (now : Nat)
    (store : List Todo) : List Todo :=
  store.map (fun t => if t.id == id then applyUpdates u now t else t)

/-- `updateTodo`: 400 on malformed id; 400 when the whitelisted field
set is empty; 400 when the update validators fail (before the lookup);
404 when the id is absent; otherwise persist the merge and return it. -/
def updateTodo (id : String) (b : UpdateBody) (now : Nat)
    (store : List Todo) : Resp × List Todo :=
  if isValidObjectId id then
    let u := whitelist b
    if u.isEmpty then
      ({ status := 400,
         body := response false "No valid fields provided for update" .null },
       store)
    else
      let errs := updateValidationErrors u
      if errs.isEmpty then
        match findById id store with
        | none =>
          ({ status := 404, body := response false "Todo not found" .null },
           store)
        | some t =>
          ({ status := 200,
             body := response true "Todo updated successfully"
               (.one (applyUpdates u now t)) },
           updateStore id u now store)
      else
        ({ status := 400,
           body := response false (String.intercalate ". " errs) .null },
         store)
  else
    ({ status := 400,
       body := response false ("\"" ++ id ++ "\" is not a valid Todo ID") .null },
     store)

-- ── 5. DELETE – DELETE /api/todos/:id ───────────────────────────────────

/-- `deleteTodo`: 400 on malformed id; 404 when absent; on success the
record is removed and a 204 with an empty body is sent. -/
def deleteTodo (id : String) (store : List Todo) : Resp × List Todo :=
  if isValidObjectId id then
    match findById id store with
    | none =>
      ({ status := 404, body := response false "Todo not found" .null },
       store)
    | some _ =>
      ({ status := 204, body := Body.empty },
       store.filter (fun t => !(t.id == id)))
  else
    ({ status := 400,
       body := response false ("\"" ++ id ++ "\" is not a valid Todo ID") .null },
     store)

-- ── Data-model invariants ───────────────────────────────────────────────

/-- The spec's record invariants: trimmed title length at least 3, a
legal priority, and `createdAt ≤ updatedAt`. -/
def TodoInv (t : Todo) : Prop :=
  3 ≤ (strTrim t.title).length ∧ validPriority t.priority = true ∧
    t.createdAt ≤ t.updatedAt

instance : DecidablePred TodoInv := by
  intro t
  unfold TodoInv
  infer_instance

/-- A record state the validation rules reject: trimmed title shorter
than 3, or an illegal priority. -/
def MergedInvalid (t : Todo) : Prop :=
  (strTrim t.title).length < 3 ∨ validPriority t.priority = false

instance : DecidablePred MergedInvalid := by
  intro t
  unfold MergedInvalid
  infer_instance

-- ── Helper lemmas about trimming ────────────────────────────────────────

theorem dropWhile_cons_self {α : Type} (p : α → Bool) (a : α) (t : List α)
    (h : List.dropWhile p (a :: t) = a :: t) : p a = false := by
  by_cases hx : p a
  · exfalso
    rw [List.dropWhile_cons, if_pos hx] at h
    have hlen := (List.dropWhile_sublist (l := t) p).length_le
    rw [h] at hlen
    simp at hlen
  · simpa using hx

theorem dropWhile_head_false {α : Type} (p : α → Bool) (l : List α) (a : α)
    (t : List α) (h : List.dropWhile p l = a :: t) : p a = false := by
  have hh := List.head?_dropWhile_not p l
  rw [h] at hh
  simpa using hh

theorem dropWhile_idem {α : Type} (p : α → Bool) (l : List α) :
    List.dropWhile p (List.dropWhile p l) = List.dropWhile p l := by
  cases h : List.dropWhile p l with
  | nil => simp
  | cons a t =>
    have ha := dropWhile_head_false p l a t h
    rw [List.dropWhile_cons, if_neg (by simp [ha])]

theorem leftTrimmed_rightTrim {α : Type} (p : α → Bool) (l : List α)
    (h : List.dropWhile p l = l) :
    List.dropWhile p (List.dropWhile p l.reverse).reverse =
      (List.dropWhile p l.reverse).reverse := by
  cases l with
  | nil => simp
  | cons a t =>
    have ha : p a = false := dropWhile_cons_self p a t h
    rw [List.reverse_cons, List.dropWhile_append]
    by_cases he : (List.dropWhile p t.reverse).isEmpty
    · rw [if_pos he]
      simp [List.dropWhile_cons, ha]
    · rw [if_neg he]
      simp [List.reverse_append, List.dropWhile_cons, ha]

theorem trimChars_idem (l : List Char) : trimChars (trimChars l) = trimChars l := by
  unfold trimChars
  rw [leftTrimmed_rightTrim jsWhitespace (List.dropWhile jsWhitespace l)
      (dropWhile_idem jsWhitespace l)]
  rw [List.reverse_reverse]
  rw [dropWhile_idem]

theorem strTrim_idem (s : String) : strTrim (strTrim s) = strTrim s := by
  unfold strTrim
  exact congrArg String.mk (trimChars_idem s.data)

-- ── Helper lemmas about sorting ─────────────────────────────────────────

theorem perm_insertByCreatedAtDesc (t : Todo) (l : List Todo) :
    List.Perm (insertByCreatedAtDesc t l) (t :: l) := by
  induction l with
  | nil => exact List.Perm.refl _
  | cons x xs ih =>
    simp only [insertByCreatedAtDesc]
    by_cases h : x.createdAt ≤ t.createdAt
    · rw [if_pos h]
    · rw [if_neg h]
      exact (ih.cons x).trans (List.Perm.swap t x xs)

theorem perm_sortByCreatedAtDesc (l : List Todo) :
    List.Perm (sortByCreatedAtDesc l) l := by
  induction l with
  | nil => exact List.Perm.refl _
  | cons x xs ih =>
    simp only [sortByCreatedAtDesc]
    exact (perm_insertByCreatedAtDesc x (sortByCreatedAtDesc xs)).trans (ih.cons x)

theorem pairwise_insertByCreatedAtDesc (t : Todo) (l : List Todo)
    (h : List.Pairwise (fun a b => b.createdAt ≤ a.createdAt) l) :
    List.Pairwise (fun a b => b.createdAt ≤ a.createdAt)
      (insertByCreatedAtDesc t l) := by
  induction l with
  | nil => simp [insertByCreatedAtDesc]
  | cons x xs ih =>
    rcases List.pairwise_cons.mp h with ⟨hx, hxs⟩
    simp only [insertByCreatedAtDesc]
    by_cases hc : x.createdAt ≤ t.createdAt
    · rw [if_pos hc]
      refine List.pairwise_cons.mpr ⟨?_, h⟩
      intro y hy
      rcases List.mem_cons.mp hy with rfl | hy'
      · exact hc
      · exact Nat.le_trans (hx y hy') hc
    · rw [if_neg hc]
      refine List.pairwise_cons.mpr ⟨?_, ih hxs⟩
      intro y hy
      have hmem := (perm_insertByCreatedAtDesc t xs).mem_iff.mp hy
      rcases List.mem_cons.mp hmem with rfl | hy'
      · exact le_of_not_le hc
      · exact hx y hy'

theorem pairwise_sortByCreatedAtDesc (l : List Todo) :
    List.Pairwise (fun a b => b.createdAt ≤ a.createdAt)
      (sortByCreatedAtDesc l) := by
  induction l with
  | nil => simp [sortByCreatedAtDesc]
  | cons x xs ih =>
    simp only [sortByCreatedAtDesc]
    exact pairwise_insertByCreatedAtDesc x _ ih

-- ── Claims ──────────────────────────────────────────────────────────────

/-- Claim C1, counterexample: a creation input whose title has
trim-length at least 3 but whose supplied priority is outside the enum
is rejected with 400, so the create operation does not succeed with 201
for every such input. -/
theorem c1_counterexample :
    3 ≤ (strTrim "Buy milk").length ∧
    ((createTodo ⟨some "Buy milk", none, none, some "urgent"⟩
        "a1b2c3d4e5f6a1b2c3d4e5f6" 0 []).1).status = 400 ∧
    ((createTodo ⟨some "Buy milk", none, none, some "urgent"⟩
        "a1b2c3d4e5f6a1b2c3d4e5f6" 0 []).1).status ≠ 201 := by
  decide

/-- Claim C1 (amended): for every creation input whose title has
trim-length at least 3 and whose priority, when supplied, is one of the
three enum values, the create operation succeeds with 201 "created",
the stored record's title equals the trimmed input, the record carries
the system-assigned id and both timestamps, and every omitted optional
field receives its default (status false, priority "medium", empty
description). -/
theorem c1_create_valid (s : String) (d : Option String) (st : Option Bool)
    (p : Option String) (id : String) (now : Nat) (store : List Todo)
    (ht : 3 ≤ (strTrim s).length)
    (hp : p = none ∨ ∃ q, p = some q ∧ validPriority q = true) :
    createTodo ⟨some s, d, st, p⟩ id now store =
      ({ status := 201,
         body := response true "Todo created successfully"
           (.one (newTodo ⟨some s, d, st, p⟩ id now)) },
       store ++ [newTodo ⟨some s, d, st, p⟩ id now]) ∧
    (newTodo ⟨some s, d, st, p⟩ id now).title = strTrim s ∧
    (newTodo ⟨some s, d, st, p⟩ id now).id = id ∧
    (newTodo ⟨some s, d, st, p⟩ id now).createdAt = now ∧
    (newTodo ⟨some s, d, st, p⟩ id now).updatedAt = now ∧
    (st = none → (newTodo ⟨some s, d, st, p⟩ id now).status = false) ∧
    (p = none → (newTodo ⟨some s, d, st, p⟩ id now).priority = "medium") ∧
    (d = none → (newTodo ⟨some s, d, st, p⟩ id now).description = "") := by
  have h1 : ¬ strTrim s = "" := by
    intro h0
    rw [h0] at ht
    exact absurd ht (by decide)
  have hterr : titleErrors (some s) = [] := by
    simp only [titleErrors]
    rw [if_neg h1, if_neg (by omega)]
  have hperr : priorityErrors p = [] := by
    rcases hp with rfl | ⟨q, rfl, hq⟩
    · rfl
    · simp [priorityErrors, hq]
  have herrs : createValidationErrors ⟨some s, d, st, p⟩ = [] := by
    unfold createValidationErrors
    simp [hterr, hperr]
  refine ⟨?_, rfl, rfl, rfl, rfl, ?_, ?_, ?_⟩
  · simp only [createTodo, herrs]
    rfl
  · intro h
    subst h
    rfl
  · intro h
    subst h
    rfl
  · intro h
    subst h
    rfl

/-- Claim C1 witness: creating with title " Buy milk " and all optional
fields omitted yields 201. -/
theorem c1_witness :
    ((createTodo ⟨some " Buy milk ", none, none, none⟩ "a1" 7 []).1).status
      = 201 := by
  have h := (c1_create_valid " Buy milk " none none none "a1" 7 []
    (by decide) (Or.inl rfl)).1
  rw [h]

/-- Claim C2: for every creation input whose title is absent or trims
to fewer than 3 characters, the create operation returns 400 with the
concatenation of all field-level validator messages, and the store is
unchanged. -/
theorem c2_create_invalid_title (inp : CreateInput) (id : String) (now : Nat)
    (store : List Todo)
    (h : inp.title = none ∨ ∃ s, inp.title = some s ∧ (strTrim s).length < 3) :
    ((createTodo inp id now store).1).status = 400 ∧
    ((createTodo inp id now store).1).body =
      response false (String.intercalate ". " (createValidationErrors inp))
        .null ∧
    (createTodo inp id now store).2 = store := by
  have hne : titleErrors inp.title ≠ [] := by
    rcases h with h0 | ⟨s, hs, hlen⟩
    · rw [h0]
      simp [titleErrors]
    · rw [hs]
      simp only [titleErrors]
      by_cases he : strTrim s = ""
      · rw [if_pos he]
        simp
      · rw [if_neg he, if_pos hlen]
        simp
  have herrs : (createValidationErrors inp).isEmpty = false := by
    unfold createValidationErrors
    cases hts : titleErrors inp.title with
    | nil => exact absurd hts hne
    | cons a t => simp
  simp only [createTodo, herrs]
  exact ⟨rfl, rfl, rfl⟩

/-- Claim C2 witness: creating with title " ab " fails with 400 and an
empty store stays empty. -/
theorem c2_witness :
    ((createTodo ⟨some " ab ", none, none, none⟩ "a1" 7 []).1).status = 400 ∧
    (createTodo ⟨some " ab ", none, none, none⟩ "a1" 7 []).2 = [] := by
  have h := c2_create_invalid_title ⟨some " ab ", none, none, none⟩ "a1" 7 []
    (Or.inr ⟨" ab ", rfl, by decide⟩)
  exact ⟨h.1, h.2.2⟩

/-- Claim C3: for every store state and every combination of the
optional status and priority filters, the list operation returns a 200
envelope holding exactly the records matching all supplied filters
(absent filter means no constraint; both present combine with AND),
ordered newest createdAt first, with a message reporting the number of
records returned. -/
theorem c3_list_filter_sort (q : ListQuery) (store : List Todo) :
    ∃ ts, getAllTodos q store =
      { status := 200,
        body := response true
          (toString ts.length ++ " todo(s) retrieved successfully")
          (.many ts) } ∧
      List.Perm ts (store.filter (matchesFilter q)) ∧
      (∀ t, t ∈ ts ↔ t ∈ store ∧
        (∀ s, q.status = some s → t.status = (s == "true")) ∧
        (∀ p, q.priority = some p → t.priority = p)) ∧
      List.Pairwise (fun a b => b.createdAt ≤ a.createdAt) ts := by
  obtain ⟨qs, qp⟩ := q
  refine ⟨sortByCreatedAtDesc (store.filter (matchesFilter ⟨qs, qp⟩)), rfl,
    perm_sortByCreatedAtDesc _, ?_, pairwise_sortByCreatedAtDesc _⟩
  intro t
  rw [(perm_sortByCreatedAtDesc _).mem_iff, List.mem_filter]
  cases qs with
  | none =>
    cases qp with
    | none => simp [matchesFilter]
    | some p0 => simp [matchesFilter, beq_iff_eq]
  | some s0 =>
    cases qp with
    | none => simp [matchesFilter, beq_iff_eq]
    | some p0 =>
      simp [matchesFilter, Bool.and_eq_true, beq_iff_eq]

/-- Claim C4, counterexample: an update whose identifier is
syntactically valid but absent from the store, with a body containing
no whitelisted field, returns 400 rather than 404. -/
theorem c4_counterexample :
    isValidObjectId "507f1f77bcf86cd799439011" = true ∧
    findById "507f1f77bcf86cd799439011" [] = none ∧
    ((updateTodo "507f1f77bcf86cd799439011" ⟨none, none, none, none, none, none⟩
        0 []).1).status = 400 ∧
    ((updateTodo "507f1f77bcf86cd799439011" ⟨none, none, none, none, none, none⟩
        0 []).1).status ≠ 404 := by
  decide

/-- Claim C4 (amended): a syntactically invalid identifier always yields
400 with no store dependence for get-by-id, update and delete; a
syntactically valid but absent identifier yields 404 for get-by-id and
delete, and for update exactly when the body passes the whitelist
non-emptiness and validation checks (otherwise those 400 errors take
precedence). -/
theorem c4_amended (idBad idGood : String) (b : UpdateBody) (now : Nat)
    (store : List Todo)
    (hbad : isValidObjectId idBad = false)
    (hgood : isValidObjectId idGood = true)
    (habs : findById idGood store = none) :
    (getTodoById idBad store =
      { status := 400,
        body := response false ("\"" ++ idBad ++ "\" is not a valid Todo ID")
          .null } ∧
     (updateTodo idBad b now store).1 =
      { status := 400,
        body := response false ("\"" ++ idBad ++ "\" is not a valid Todo ID")
          .null } ∧
     (updateTodo idBad b now store).2 = store ∧
     (deleteTodo idBad store).1 =
      { status := 400,
        body := response false ("\"" ++ idBad ++ "\" is not a valid Todo ID")
          .null } ∧
     (deleteTodo idBad store).2 = store) ∧
    (getTodoById idGood store =
      { status := 404, body := response false "Todo not found" .null } ∧
     (deleteTodo idGood store).1 =
      { status := 404, body := response false "Todo not found" .null } ∧
     (deleteTodo idGood store).2 = store ∧
     ((whitelist b).isEmpty = false →
      updateValidationErrors (whitelist b) = [] →
      (updateTodo idGood b now store).1 =
        { status := 404, body := response false "Todo not found" .null } ∧
      (updateTodo idGood b now store).2 = store)) := by
  refine ⟨⟨?_, ?_, ?_, ?_, ?_⟩, ⟨?_, ?_, ?_, ?_⟩⟩
  · simp [getTodoById, hbad]
  · simp [updateTodo, hbad]
  · simp [updateTodo, hbad]
  · simp [deleteTodo, hbad]
  · simp [deleteTodo, hbad]
  · simp [getTodoById, hgood, habs]
  · simp [deleteTodo, hgood, habs]
  · simp [deleteTodo, hgood, habs]
  · intro hne hval
    simp [updateTodo, hgood, hne, hval, habs]

/-- Claim C4 witness: get-by-id on the malformed id "xyz" yields 400
and on a well-formed absent id yields 404. -/
theorem c4_witness :
    (getTodoById "xyz" []).status = 400 ∧
    (getTodoById "507f1f77bcf86cd799439011" []).status = 404 := by
  have h := c4_amended "xyz" "507f1f77bcf86cd799439011"
    ⟨some "Buy milk", none, none, none, none, none⟩ 0 []
    (by decide) (by decide) rfl
  exact ⟨by rw [h.1.1], by rw [h.2.1]⟩

/-- On a record satisfying the data-model invariants, the update
validators (which run only on the supplied paths) accept exactly when
the merged record would be valid. -/
theorem updateValidationErrors_eq_nil_iff (u : Updates) (t : Todo) (now : Nat)
    (hinv : TodoInv t) :
    updateValidationErrors u = [] ↔ ¬ MergedInvalid (applyUpdates u now t) := by
  obtain ⟨ut, ud, us, up⟩ := u
  obtain ⟨h1, h2, _⟩ := hinv
  cases ut with
  | none =>
    cases up with
    | none =>
      simp [updateValidationErrors, updateTitleErrors, priorityErrors,
            MergedInvalid, applyUpdates, h2]
      omega
    | some p0 =>
      by_cases hp : validPriority p0
      · simp [updateValidationErrors, updateTitleErrors, priorityErrors,
              MergedInvalid, applyUpdates, hp]
        omega
      · simp [updateValidationErrors, updateTitleErrors, priorityErrors,
              MergedInvalid, applyUpdates, hp]
  | some s0 =>
    cases up with
    | none =>
      by_cases hl : (strTrim s0).length < 3
      · simp [updateValidationErrors, updateTitleErrors, priorityErrors,
              MergedInvalid, applyUpdates, hl, strTrim_idem]
      · simp [updateValidationErrors, updateTitleErrors, priorityErrors,
              MergedInvalid, applyUpdates, hl, strTrim_idem, h2]
    | some p0 =>
      by_cases hl : (strTrim s0).length < 3
      · simp [updateValidationErrors, updateTitleErrors, priorityErrors,
              MergedInvalid, applyUpdates, hl, strTrim_idem]
      · by_cases hp : validPriority p0
        · simp [updateValidationErrors, updateTitleErrors, priorityErrors,
                MergedInvalid, applyUpdates, hl, strTrim_idem, hp]
        · simp [updateValidationErrors, updateTitleErrors, priorityErrors,
                MergedInvalid, applyUpdates, hl, strTrim_idem, hp]

/-- `findByIdAndUpdate` returns exactly the merged version of the
looked-up record. -/
theorem findById_updateStore (id : String) (u : Updates) (now : Nat)
    (store : List Todo) :
    findById id (updateStore id u now store) =
      (findById id store).map (applyUpdates u now) := by
  induction store with
  | nil => rfl
  | cons x xs ih =>
    simp only [updateStore, List.map_cons, findById] at *
    by_cases hx : (x.id == id) = true
    · rw [if_pos hx]
      rw [List.find?_cons_of_pos, List.find?_cons_of_pos]
      · rfl
      · exact hx
      · exact hx
    · rw [if_neg hx]
      rw [List.find?_cons_of_neg, List.find?_cons_of_neg]
      · exact ih
      · simpa using hx
      · simpa using hx

/-- Claim C5: for an existing, invariant-satisfying record and a
non-empty whitelisted partial update: when overlaying the supplied
fields would yield an invalid record the update returns 400 and the
store is unchanged; otherwise it returns 200 with the merged record,
whose `updatedAt` is refreshed, and persists the merge. -/
theorem c5_update_merge (id : String) (b1 b2 : UpdateBody) (now : Nat)
    (store : List Todo) (t : Todo)
    (hid : isValidObjectId id = true)
    (hfind : findById id store = some t)
    (hinv : TodoInv t)
    (hne1 : (whitelist b1).isEmpty = false)
    (hbad : MergedInvalid (applyUpdates (whitelist b1) now t))
    (hne2 : (whitelist b2).isEmpty = false)
    (hok : ¬ MergedInvalid (applyUpdates (whitelist b2) now t)) :
    (((updateTodo id b1 now store).1).status = 400 ∧
     (updateTodo id b1 now store).2 = store) ∧
    ((updateTodo id b2 now store).1 =
      { status := 200,
        body := response true "Todo updated successfully"
          (.one (applyUpdates (whitelist b2) now t)) } ∧
     (applyUpdates (whitelist b2) now t).updatedAt = now ∧
     (updateTodo id b2 now store).2 = updateStore id (whitelist b2) now store ∧
     findById id (updateTodo id b2 now store).2 =
       some (applyUpdates (whitelist b2) now t)) := by
  have hv1 : (updateValidationErrors (whitelist b1)).isEmpty = false := by
    cases hc : updateValidationErrors (whitelist b1) with
    | nil =>
      exact absurd hbad
        ((updateValidationErrors_eq_nil_iff (whitelist b1) t now hinv).mp hc)
    | cons a l => simp
  have hv2 : updateValidationErrors (whitelist b2) = [] :=
    (updateValidationErrors_eq_nil_iff (whitelist b2) t now hinv).mpr hok
  constructor
  · simp [updateTodo, hid, hne1, hv1]
  · have hrun :
        updateTodo id b2 now store =
          ({ status := 200,
             body := response true "Todo updated successfully"
               (.one (applyUpdates (whitelist b2) now t)) },
           updateStore id (whitelist b2) now store) := by
      simp [updateTodo, hid, hne2, hv2, hfind]
    refine ⟨by rw [hrun], rfl, by rw [hrun], ?_⟩
    rw [hrun]
    rw [findById_updateStore, hfind]
    rfl

/-- Claim C5 witness: on a stored record with title "abc", updating the
title to "x" fails with 400, while updating the status succeeds with
200. -/
theorem c5_witness :
    ((updateTodo "507f1f77bcf86cd799439011"
        ⟨some "x", none, none, none, none, none⟩ 5
        [⟨"507f1f77bcf86cd799439011", "abc", "", false, "medium", 0, 0⟩]).1).status
      = 400 ∧
    ((updateTodo "507f1f77bcf86cd799439011"
        ⟨none, none, some true, none, none, none⟩ 5
        [⟨"507f1f77bcf86cd799439011", "abc", "", false, "medium", 0, 0⟩]).1).status
      = 200 := by
  have h := c5_update_merge "507f1f77bcf86cd799439011"
    ⟨some "x", none, none, none, none, none⟩
    ⟨none, none, some true, none, none, none⟩ 5
    [⟨"507f1f77bcf86cd799439011", "abc", "", false, "medium", 0, 0⟩]
    ⟨"507f1f77bcf86cd799439011", "abc", "", false, "medium", 0, 0⟩
    (by decide) (by decide) (by decide) (by decide) (by decide) (by decide)
    (by decide)
  exact ⟨h.1.1, by rw [h.2.1]⟩

/-- The store after `updateTodo` is either unchanged or the result of
merging the validated whitelisted fields into the matching record. -/
theorem updateTodo_snd_cases (id : String) (b : UpdateBody) (now : Nat)
    (store : List Todo) :
    (updateTodo id b now store).2 = store ∨
    ((updateTodo id b now store).2 = updateStore id (whitelist b) now store ∧
      updateValidationErrors (whitelist b) = []) := by
  simp only [updateTodo]
  split
  · split
    · left
      rfl
    · split
      · rename_i herr
        split
        · left
          rfl
        · right
          exact ⟨rfl, List.isEmpty_iff.mp herr⟩
      · left
        rfl
  · left
    rfl

/-- Claim C6: an update applies only the whitelisted fields — the
outcome is unchanged when the body's `id` and `createdAt` fields are
dropped — and in the resulting store every record keeps its `id` and
`createdAt`, and every field not supplied in the request keeps its
previous value. -/
theorem c6_update_whitelist_frame (id : String) (b : UpdateBody) (now : Nat)
    (store : List Todo) :
    updateTodo id b now store =
      updateTodo id ⟨b.title, b.description, b.status, b.priority, none, none⟩
        now store ∧
    List.Forall₂ (fun told tnew =>
        tnew.id = told.id ∧ tnew.createdAt = told.createdAt ∧
        (b.title = none → tnew.title = told.title) ∧
        (b.description = none → tnew.description = told.description) ∧
        (b.status = none → tnew.status = told.status) ∧
        (b.priority = none → tnew.priority = told.priority))
      store (updateTodo id b now store).2 := by
  constructor
  · rfl
  · rcases updateTodo_snd_cases id b now store with hs | ⟨hs, _⟩ <;> rw [hs]
    · exact List.forall₂_same.mpr (fun x _ =>
        ⟨rfl, rfl, fun _ => rfl, fun _ => rfl, fun _ => rfl, fun _ => rfl⟩)
    · unfold updateStore
      rw [List.forall₂_map_right_iff]
      refine List.forall₂_same.mpr (fun x _ => ?_)
      by_cases hx : (x.id == id) = true
      · rw [if_pos hx]
        refine ⟨rfl, rfl, ?_, ?_, ?_, ?_⟩ <;> intro h <;>
          simp [applyUpdates, whitelist, h]
      · rw [if_neg hx]
        exact ⟨rfl, rfl, fun _ => rfl, fun _ => rfl, fun _ => rfl, fun _ => rfl⟩

/-- Claim C7: an update with a syntactically valid identifier whose
body contains no whitelisted field fails with 400 ("No valid fields
provided for update") and leaves the store unchanged. -/
theorem c7_update_empty_whitelist (id : String) (b : UpdateBody) (now : Nat)
    (store : List Todo)
    (hid : isValidObjectId id = true)
    (hemp : (whitelist b).isEmpty = true) :
    (updateTodo id b now store).1 =
      { status := 400,
        body := response false "No valid fields provided for update" .null } ∧
    (updateTodo id b now store).2 = store := by
  simp [updateTodo, hid, hemp]

/-- Claim C7 witness: a body supplying only the non-whitelisted fields
`id` and `createdAt` is rejected with 400 and the store is untouched. -/
theorem c7_witness :
    ((updateTodo "507f1f77bcf86cd799439011"
        ⟨none, none, none, none, some "evil", some 99⟩ 3 []).1).status = 400 ∧
    (updateTodo "507f1f77bcf86cd799439011"
        ⟨none, none, none, none, some "evil", some 99⟩ 3 []).2 = [] := by
  have h := c7_update_empty_whitelist "507f1f77bcf86cd799439011"
    ⟨none, none, none, none, some "evil", some 99⟩ 3 [] (by decide) (by decide)
  exact ⟨by rw [h.1], h.2⟩

/-- Claim C8, counterexample: the delete operation's success outcome is
a 204 with an empty body, not the uniform envelope, so not every
outcome of the five operations is returned as the envelope. -/
theorem c8_counterexample :
    ((deleteTodo "507f1f77bcf86cd799439011"
        [⟨"507f1f77bcf86cd799439011", "abc", "", false, "medium", 0, 0⟩]).1).status
      = 204 ∧
    Body.isEnvelope ((deleteTodo "507f1f77bcf86cd799439011"
        [⟨"507f1f77bcf86cd799439011", "abc", "", false, "medium", 0, 0⟩]).1).body
      = false := by
  decide

/-- Claim C8 (amended): every outcome of the five operations is the
uniform envelope, except the delete operation's success outcome, which
is a 204 with an empty body. -/
theorem c8_amended (inp : CreateInput) (idNew : String) (now : Nat)
    (store : List Todo) (q : ListQuery) (id : String) (b : UpdateBody) :
    Body.isEnvelope ((createTodo inp idNew now store).1).body = true ∧
    Body.isEnvelope (getAllTodos q store).body = true ∧
    Body.isEnvelope (getTodoById id store).body = true ∧
    Body.isEnvelope ((updateTodo id b now store).1).body = true ∧
    (Body.isEnvelope ((deleteTodo id store).1).body = true ∨
      (deleteTodo id store).1 = { status := 204, body := Body.empty }) := by
  refine ⟨?_, rfl, ?_, ?_, ?_⟩
  · simp only [createTodo]
    split <;> rfl
  · simp only [getTodoById]
    split
    · split <;> rfl
    · rfl
  · simp only [updateTodo]
    split
    · split
      · rfl
      · split
        · split <;> rfl
        · rfl
    · rfl
  · simp only [deleteTodo]
    split
    · split
      · left
        rfl
      · right
        rfl
    · left
      rfl

/-- A freshly created valid document satisfies the data-model
invariants. -/
theorem TodoInv_newTodo (inp : CreateInput) (id : String) (now : Nat)
    (hval : createValidationErrors inp = []) : TodoInv (newTodo inp id now) := by
  unfold createValidationErrors at hval
  rcases List.append_eq_nil.mp hval with ⟨hts, hps⟩
  refine ⟨?_, ?_, Nat.le_refl _⟩
  · cases hti : inp.title with
    | none =>
      rw [hti] at hts
      simp [titleErrors] at hts
    | some s =>
      rw [hti] at hts
      simp only [titleErrors] at hts
      by_cases he : strTrim s = ""
      · rw [if_pos he] at hts
        simp at hts
      · rw [if_neg he] at hts
        by_cases hl : (strTrim s).length < 3
        · rw [if_pos hl] at hts
          simp at hts
        · show 3 ≤ (strTrim (strTrim (inp.title.getD ""))).length
          rw [hti]
          show 3 ≤ (strTrim (strTrim s)).length
          rw [strTrim_idem]
          omega
  · cases hpi : inp.priority with
    | none =>
      show validPriority ((inp.priority).getD "medium") = true
      rw [hpi]
      rfl
    | some p0 =>
      rw [hpi] at hps
      simp only [priorityErrors] at hps
      by_cases hp : validPriority p0
      · show validPriority ((inp.priority).getD "medium") = true
        rw [hpi]
        exact hp
      · rw [if_neg (by simp [hp])] at hps
        simp at hps

/-- Merging validated whitelisted fields into an invariant-satisfying
record at a later time preserves the data-model invariants. -/
theorem TodoInv_applyUpdates (u : Updates) (now : Nat) (t : Todo)
    (hinv : TodoInv t) (hclock : t.updatedAt ≤ now)
    (hval : updateValidationErrors u = []) : TodoInv (applyUpdates u now t) := by
  obtain ⟨h1, h2, h3⟩ := hinv
  unfold updateValidationErrors at hval
  rcases List.append_eq_nil.mp hval with ⟨hts, hps⟩
  refine ⟨?_, ?_, ?_⟩
  · simp only [applyUpdates]
    cases htu : u.title with
    | none => exact h1
    | some s =>
      rw [htu] at hts
      simp only [updateTitleErrors] at hts
      by_cases hl : (strTrim s).length < 3
      · rw [if_pos hl] at hts
        simp at hts
      · show 3 ≤ (strTrim (strTrim s)).length
        rw [strTrim_idem]
        omega
  · simp only [applyUpdates]
    cases hpu : u.priority with
    | none => exact h2
    | some p0 =>
      rw [hpu] at hps
      simp only [priorityErrors] at hps
      by_cases hp : validPriority p0
      · exact hp
      · rw [if_neg (by simp [hp])] at hps
        simp at hps
  · simp only [applyUpdates]
    exact Nat.le_trans h3 hclock

/-- Claim C9: with a clock at or past every stored record's last
modification, the create, update and delete operations preserve the
data-model invariants on every stored record (title trim-length ≥ 3,
priority in the enum, createdAt ≤ updatedAt), and an update never
changes any record's `id` or `createdAt` and never decreases its
`updatedAt`. -/
theorem c9_invariants (now : Nat) (store : List Todo)
    (hinv : ∀ t ∈ store, TodoInv t)
    (hclock : ∀ t ∈ store, t.updatedAt ≤ now) :
    (∀ inp idNew t', t' ∈ (createTodo inp idNew now store).2 → TodoInv t') ∧
    (∀ id b t', t' ∈ (updateTodo id b now store).2 → TodoInv t') ∧
    (∀ id t', t' ∈ (deleteTodo id store).2 → TodoInv t') ∧
    (∀ id b, List.Forall₂ (fun told tnew =>
        tnew.id = told.id ∧ tnew.createdAt = told.createdAt ∧
        told.updatedAt ≤ tnew.updatedAt)
      store (updateTodo id b now store).2) := by
  refine ⟨?_, ?_, ?_, ?_⟩
  · intro inp idNew t' ht'
    by_cases herr : (createValidationErrors inp).isEmpty
    · simp only [createTodo, herr, if_true] at ht'
      rcases List.mem_append.mp ht' with hmem | hmem
      · exact hinv t' hmem
      · rw [List.mem_singleton.mp hmem]
        exact TodoInv_newTodo inp idNew now (List.isEmpty_iff.mp herr)
    · simp only [createTodo, Bool.not_eq_true] at herr
      simp only [createTodo, herr] at ht'
      exact hinv t' ht'
  · intro id b t' ht'
    rcases updateTodo_snd_cases id b now store with hs | ⟨hs, hval⟩ <;>
      rw [hs] at ht'
    · exact hinv t' ht'
    · rcases List.mem_map.mp ht' with ⟨t0, ht0, hft⟩
      by_cases hx : (t0.id == id) = true
      · rw [if_pos hx] at hft
        rw [← hft]
        exact TodoInv_applyUpdates (whitelist b) now t0 (hinv t0 ht0)
          (hclock t0 ht0) hval
      · rw [if_neg hx] at hft
        rw [← hft]
        exact hinv t0 ht0
  · intro id t' ht'
    simp only [deleteTodo] at ht'
    split at ht'
    · split at ht'
      · exact hinv t' ht'
      · exact hinv t' (List.mem_filter.mp ht').1
    · exact hinv t' ht'
  · intro id b
    rcases updateTodo_snd_cases id b now store with hs | ⟨hs, _⟩ <;> rw [hs]
    · exact List.forall₂_same.mpr (fun x _ => ⟨rfl, rfl, Nat.le_refl _⟩)
    · unfold updateStore
      rw [List.forall₂_map_right_iff]
      refine List.forall₂_same.mpr (fun x hx => ?_)
      by_cases hid : (x.id == id) = true
      · rw [if_pos hid]
        exact ⟨rfl, rfl, hclock x hx⟩
      · rw [if_neg hid]
        exact ⟨rfl, rfl, Nat.le_refl _⟩

/-- Claim C9 witness: the record created from a valid input on top of
an invariant-satisfying store satisfies the invariants. -/
theorem c9_witness :
    TodoInv (newTodo ⟨some "Buy milk", none, none, none⟩ "a1" 5) := by
  have h := c9_invariants 5
    [⟨"507f1f77bcf86cd799439011", "abc", "", false, "medium", 1, 2⟩]
    (by decide) (by decide)
  exact h.1 ⟨some "Buy milk", none, none, none⟩ "a1"
    (newTodo ⟨some "Buy milk", none, none, none⟩ "a1" 5) (by decide)

/-- Claim C10: when the status query parameter is present, the list
operation filters for completed records exactly when the parameter is
the string "true"; every other string behaves as a filter for
status=false (never an invalid-parameter error). -/
theorem c10_status_filter_string (s : String) (p : Option String)
    (store : List Todo) (h : s ≠ "true") :
    getAllTodos ⟨some s, p⟩ store = getAllTodos ⟨some "false", p⟩ store ∧
    (getAllTodos ⟨some s, p⟩ store).status = 200 ∧
    (∀ t ∈ (getAllTodos ⟨some s, p⟩ store).listData, t.status = false) ∧
    (∀ t ∈ (getAllTodos ⟨some "true", p⟩ store).listData, t.status = true) := by
  have hs : (s == "true") = false := beq_eq_false_iff_ne.mpr h
  have hmf : matchesFilter ⟨some s, p⟩ = matchesFilter ⟨some "false", p⟩ := by
    funext t
    simp [matchesFilter, hs]
  refine ⟨?_, rfl, ?_, ?_⟩
  · unfold getAllTodos
    rw [hmf]
  · intro t ht
    have hmem := (perm_sortByCreatedAtDesc _).mem_iff.mp ht
    have := (List.mem_filter.mp hmem).2
    simp [matchesFilter, hs] at this
    exact this.1
  · intro t ht
    have hmem := (perm_sortByCreatedAtDesc _).mem_iff.mp ht
    have := (List.mem_filter.mp hmem).2
    simp [matchesFilter] at this
    exact this.1

/-- Claim C10 witness: the status parameter "banana" filters like
"false". -/
theorem c10_witness :
    getAllTodos ⟨some "banana", none⟩
        [⟨"a", "abc", "", false, "medium", 1, 1⟩,
         ⟨"b", "def", "", true, "high", 2, 2⟩] =
      getAllTodos ⟨some "false", none⟩
        [⟨"a", "abc", "", false, "medium", 1, 1⟩,
         ⟨"b", "def", "", true, "high", 2, 2⟩] := by
  exact (c10_status_filter_string "banana" none
    [⟨"a", "abc", "", false, "medium", 1, 1⟩,
     ⟨"b", "def", "", true, "high", 2, 2⟩] (by decide)).1

end TodoApp
